import Mathlib

/-!
Shallow embedding of the interaction/animation core of the BottomSheet widget
(src/src/components/BottomSheet.jsx).  JavaScript numbers are modelled as real
numbers; the per-render React state is modelled as an explicit record
(`MState`), and each event handler becomes a pure state transformer.
-/

namespace BottomSheet

/-- One velocity sample recorded by the drag handlers: vertical pointer
position in pixels and a timestamp in milliseconds
(`velocityRef.current.push({ y, time })`). -/
structure Sample where
  y : ℝ
  time : ℝ

/-- Window update performed at the top of `calculateVelocity`: append the new
sample, and if the window now has more than 5 entries drop the oldest
(`velocityRef.current.shift()`). -/
def pushSample (w : List Sample) (s : Sample) : List Sample :=
  let w' := w ++ [s]
  if 5 < w'.length then w'.tail else w'

/-- Velocity derived from the current window, as in the tail of
`calculateVelocity`: first and last entry of the window, `distance / timeDiff`
when there are at least two samples and `timeDiff > 0`, otherwise `0`. -/
noncomputable def windowVelocity (w : List Sample) : ℝ :=
  if 2 ≤ w.length then
    let first := w.headD ⟨0, 0⟩
    let last := w.getLastD ⟨0, 0⟩
    let timeDiff := last.time - first.time
    let distance := last.y - first.y
    if 0 < timeDiff then distance / timeDiff else 0
  else 0

/-- The source's `calculateVelocity(currentY, currentTime)`: mutates the
sample window and returns the velocity; modelled as returning the new window
together with the returned velocity. -/
noncomputable def calculateVelocity (w : List Sample) (y t : ℝ) : List Sample × ℝ :=
  let w' := pushSample w ⟨y, t⟩
  (w', windowVelocity w')

/-- Folding `calculateVelocity` over a whole sequence of observations starting
from the empty window; the pair holds the final window and the velocity
returned by the last call (`0` when there was no call). -/
noncomputable def observeAll (obs : List Sample) : List Sample × ℝ :=
  obs.foldl (fun acc s => calculateVelocity acc.1 s.y s.time) ([], 0)

/-- A CSS length as it occurs in the snap-point configuration table and in
`getCurrentHeight`: either a percentage string or a pixel string. -/
inductive Height where
  | percent (v : ℝ)
  | px (v : ℝ)

/-- The hard-coded snap point order used by `determineTargetSnapPoint` and
`handleKeyDown` (`['closed', 'half-open', 'fully-open']`). -/
def snapPointOrder : List String := ["closed", "half-open", "fully-open"]

/-- JavaScript `Array.prototype.indexOf`: index of the first occurrence, `-1`
if absent. -/
def jsIndexOf (l : List String) (x : String) : Int :=
  match l.findIdx? (fun s => s == x) with
  | some i => (i : Int)
  | none => -1

/-- Height-to-fraction conversion at the top of `determineTargetSnapPoint`:
percentage strings divide by 100, pixel strings divide by the viewport
height. -/
noncomputable def heightFraction (viewportHeight : ℝ) : Height → ℝ
  | .percent v => v / 100
  | .px v => v / viewportHeight

/-- The position-threshold loop of `determineTargetSnapPoint`: walk the
zipped (threshold, snap point) pairs and return the snap point of the first
threshold the fraction does not exceed; `dflt` is the value returned after
the loop (the last snap point). -/
noncomputable def snapLoop (frac : ℝ) (dflt : String) : List (ℝ × String) → String
  | [] => dflt
  | (t, p) :: rest => if frac ≤ t then p else snapLoop frac dflt rest

/-- The source's `determineTargetSnapPoint(currentHeight, velocity)`; the
render-scope values it reads (`currentSnapPoint`, `isMobile`,
`viewportHeight`) are explicit arguments. -/
noncomputable def determineTargetSnapPoint (isMobile : Bool) (viewportHeight : ℝ)
    (currentSnapPoint : String) (currentHeight : Height) (velocity : ℝ) : String :=
  let currentIndex := jsIndexOf snapPointOrder currentSnapPoint
  let heightPercent := heightFraction viewportHeight currentHeight
  let velocityThreshold : ℝ := if isMobile then 0.3 else 0.5
  if velocityThreshold < |velocity| then
    if velocity < 0 then
      if currentIndex < (snapPointOrder.length : Int) - 1 then
        snapPointOrder.getD (currentIndex + 1).toNat ""
      else currentSnapPoint
    else
      if 0 < currentIndex then
        snapPointOrder.getD (currentIndex - 1).toNat ""
      else "closed"
  else
    let snapThresholds : List ℝ := if isMobile then [0.1, 0.3, 0.7] else [0.1, 0.35, 0.75]
    snapLoop heightPercent (snapPointOrder.getD (snapPointOrder.length - 1) "")
      (snapThresholds.zip snapPointOrder)

/-- Spring parameters as returned by `getSpringConfig`. -/
structure SpringConfig where
  tension : ℝ
  friction : ℝ
  mass : ℝ

/-- The source's `getSpringConfig()`: stiffer, lighter spring on mobile. -/
noncomputable def getSpringConfig (isMobile : Bool) : SpringConfig :=
  if isMobile then ⟨0.4, 0.7, 0.8⟩ else ⟨0.3, 0.8, 1.0⟩

/-- Natural frequency `omega = sqrt(tension / mass)` from `springEase`. -/
noncomputable def omegaOf (c : SpringConfig) : ℝ :=
  Real.sqrt (c.tension / c.mass)

/-- Damping ratio `zeta = friction / (2 * sqrt(tension * mass))` from
`springEase`. -/
noncomputable def zetaOf (c : SpringConfig) : ℝ :=
  c.friction / (2 * Real.sqrt (c.tension * c.mass))

/-- The source's `springEase(t)`: closed-form step response of a damped
harmonic oscillator, with the underdamped branch for `zeta < 1` and the
cosh/sinh branch otherwise. -/
noncomputable def springEase (c : SpringConfig) (t : ℝ) : ℝ :=
  let omega := omegaOf c
  let zeta := zetaOf c
  if zeta < 1 then
    let omegaD := omega * Real.sqrt (1 - zeta * zeta)
    1 - Real.exp (-zeta * omega * t) *
      (Real.cos (omegaD * t) + (zeta * omega / omegaD) * Real.sin (omegaD * t))
  else
    let omegaN := omega * Real.sqrt (zeta * zeta - 1)
    1 - Real.exp (-zeta * omega * t) *
      (Real.cosh (omegaN * t) + (zeta * omega / omegaN) * Real.sinh (omegaN * t))

/-- One row of the responsive per-snap-point configuration table built by
`getSnapPointConfig()`. -/
structure SnapConfig where
  height : Height
  contentVisible : Bool
  showHandle : Bool
  showSnapButtons : Bool
  threshold : ℝ
  maxWidth : Height

/-- Placeholder for a JavaScript `undefined` map lookup: `getSnapPointConfig()`
only has the three keys of `snapPointOrder`, and looking up any other name in
the source yields `undefined` (a subsequent property access would throw).
None of the theorems below exercise this row. -/
noncomputable def undefinedConfig : SnapConfig :=
  { height := .px 0, contentVisible := false, showHandle := false,
    showSnapButtons := false, threshold := 0, maxWidth := .px 0 }

/-- The source's `getSnapPointConfig()` table, including the tablet height
overrides applied after the base table is built. -/
noncomputable def getSnapPointConfig (isMobile isTablet : Bool) (sp : String) : SnapConfig :=
  if sp = "closed" then
    { height := if isMobile then .px 60 else .px 80,
      contentVisible := false, showHandle := true, showSnapButtons := false,
      threshold := 0.2,
      maxWidth := if isMobile then .percent 100 else .px 600 }
  else if sp = "half-open" then
    { height := if isTablet then .percent 55 else if isMobile then .percent 60 else .percent 50,
      contentVisible := true, showHandle := true, showSnapButtons := !isMobile,
      threshold := 0.5,
      maxWidth := if isMobile then .percent 100 else .px 600 }
  else if sp = "fully-open" then
    { height := if isTablet then .percent 92 else if isMobile then .percent 95 else .percent 90,
      contentVisible := true, showHandle := true, showSnapButtons := !isMobile,
      threshold := 0.8,
      maxWidth := if isMobile then .percent 100 else .px 600 }
  else undefinedConfig

/-- The React state of one `BottomSheet` instance, together with the two
ref cells (`velocityRef`, and the running animation's closure values
`animTarget`, `animStartTime`, `animDuration`), the `isOpen` and
`closeOnEscape` props, the caller-supplied `snapPoints` prop, a log of the
snap points passed to `announceSnapPointChange`, and a count of `onClose()`
invocations. -/
structure MState where
  isOpen : Bool
  closeOnEscape : Bool
  snapPoints : List String
  currentSnapPoint : String
  isDragging : Bool
  startY : ℝ
  currentY : ℝ
  isAnimating : Bool
  animationProgress : ℝ
  targetHeight : Height
  startHeight : Height
  dragVelocity : ℝ
  lastDragY : ℝ
  lastDragTime : ℝ
  isMobile : Bool
  isTablet : Bool
  viewportHeight : ℝ
  viewportWidth : ℝ
  velocityWindow : List Sample
  animTarget : String
  animStartTime : ℝ
  animDuration : ℝ
  announcements : List String
  closeCalls : Nat

/-- Configuration row for a snap point at the state's current device class
(`snapPointConfig[sp]` in the source). -/
noncomputable def snapPointConfigOf (s : MState) (sp : String) : SnapConfig :=
  getSnapPointConfig s.isMobile s.isTablet sp

/-- The resize handler installed by the first effect: stores the new viewport
size and reclassifies the device against the breakpoints 768 and 1024. -/
noncomputable def handleResize (s : MState) (width height : ℝ) : MState :=
  { s with
    viewportWidth := width, viewportHeight := height,
    isMobile := if width < 768 then true else false,
    isTablet := if 768 ≤ width ∧ width < 1024 then true else false }

/-- The source's `animateToSnapPoint(targetSnapPoint)` up to the scheduling of
the first frame: early return while `isAnimating`, otherwise capture the start
and target heights from the current table and enter the animating state.
`now` is `performance.now()` at the call. -/
noncomputable def animateToSnapPoint (s : MState) (target : String) (now : ℝ) : MState :=
  if s.isAnimating then s
  else
    { s with
      startHeight := (snapPointConfigOf s s.currentSnapPoint).height,
      targetHeight := (snapPointConfigOf s target).height,
      isAnimating := true,
      animationProgress := 0,
      animTarget := target,
      animStartTime := now,
      animDuration := if s.isMobile then 500 else 600 }

/-- One invocation of the `animate` frame callback scheduled by
`animateToSnapPoint`, at time `currentTime`: linear progress is clamped to 1;
below 1 the eased progress is stored, at 1 the transition commits (current
snap point becomes the target, animating flag cleared, velocity state reset,
`announceSnapPointChange(target)` fires). -/
noncomputable def animateFrame (s : MState) (currentTime : ℝ) : MState :=
  let elapsed := currentTime - s.animStartTime
  let progress := min (elapsed / s.animDuration) 1
  let springProgress := springEase (getSpringConfig s.isMobile) progress
  if progress < 1 then
    { s with animationProgress := springProgress }
  else
    { s with
      isAnimating := false, currentSnapPoint := s.animTarget,
      animationProgress := 0, dragVelocity := 0, velocityWindow := [],
      announcements := s.announcements ++ [s.animTarget] }

/-- The source's `getCurrentHeight()`: the configured height of the current
snap point when not animating, otherwise an interpolation of the captured
start/target heights when their units agree, falling back to the target
height on mixed units. -/
noncomputable def getCurrentHeight (s : MState) : Height :=
  if ¬ s.isAnimating then (snapPointConfigOf s s.currentSnapPoint).height
  else
    match s.startHeight, s.targetHeight with
    | .percent a, .percent b => .percent (a + (b - a) * s.animationProgress)
    | .px a, .px b => .px (a + (b - a) * s.animationProgress)
    | _, _ => s.targetHeight

/-- The source's `handleTouchStart`: rejected while animating, otherwise opens
a drag session, records positions and clears the velocity state. -/
noncomputable def handleTouchStart (s : MState) (clientY now : ℝ) : MState :=
  if s.isAnimating then s
  else
    { s with
      isDragging := true, startY := clientY, currentY := clientY,
      lastDragY := clientY, lastDragTime := now, dragVelocity := 0,
      velocityWindow := [] }

/-- The source's `handleTouchMove`: rejected unless a drag session is open and
no animation runs; otherwise records the position and feeds
`calculateVelocity`. -/
noncomputable def handleTouchMove (s : MState) (clientY now : ℝ) : MState :=
  if ¬ s.isDragging ∨ s.isAnimating then s
  else
    let r := calculateVelocity s.velocityWindow clientY now
    { s with
      currentY := clientY, velocityWindow := r.1, dragVelocity := r.2,
      lastDragY := clientY, lastDragTime := now }

/-- The source's `handleTouchEnd`: rejected unless a drag session is open and
no animation runs; otherwise closes the session, picks a target via
`determineTargetSnapPoint(getCurrentHeight(), dragVelocity)`, and either calls
`onClose()` (target and current both closed), starts an animation (target
differs from current), or does nothing further. -/
noncomputable def handleTouchEnd (s : MState) (now : ℝ) : MState :=
  if ¬ s.isDragging ∨ s.isAnimating then s
  else
    let s1 := { s with isDragging := false }
    let currentHeight := getCurrentHeight s1
    let target := determineTargetSnapPoint s1.isMobile s1.viewportHeight
      s1.currentSnapPoint currentHeight s1.dragVelocity
    if target = "closed" ∧ s1.currentSnapPoint = "closed" then
      { s1 with closeCalls := s1.closeCalls + 1 }
    else if target ≠ s1.currentSnapPoint then
      animateToSnapPoint s1 target now
    else s1

/-- The source's `handleKeyDown` for the dialog overlay, restricted to the
state-relevant keys (the Tab branch only moves DOM focus). -/
noncomputable def handleKeyDown (s : MState) (key : String) (now : ℝ) : MState :=
  if ¬ s.isOpen then s
  else if key = "Escape" then
    if s.closeOnEscape then
      if s.currentSnapPoint = "closed" then { s with closeCalls := s.closeCalls + 1 }
      else animateToSnapPoint s "closed" now
    else s
  else if key = "ArrowUp" then
    let currentIndex := jsIndexOf snapPointOrder s.currentSnapPoint
    if currentIndex < (snapPointOrder.length : Int) - 1 then
      animateToSnapPoint s (snapPointOrder.getD (currentIndex + 1).toNat "") now
    else s
  else if key = "ArrowDown" then
    let currentIndex := jsIndexOf snapPointOrder s.currentSnapPoint
    if 0 < currentIndex then
      animateToSnapPoint s (snapPointOrder.getD (currentIndex - 1).toNat "") now
    else if currentIndex = 0 then { s with closeCalls := s.closeCalls + 1 }
    else s
  else if key = "Home" then animateToSnapPoint s "fully-open" now
  else if key = "End" then animateToSnapPoint s "closed" now
  else s

/-- The source's `handleSnapPointClick`: animates only when the clicked snap
point differs from the current one and no animation runs. -/
noncomputable def handleSnapPointClick (s : MState) (sp : String) (now : ℝ) : MState :=
  if sp ≠ s.currentSnapPoint ∧ ¬ s.isAnimating then animateToSnapPoint s sp now else s

/-! Spec-side formulations used to state the claims about the snap-point
selector. -/

/-- Spec-side velocity-dominant rule: move exactly one index in the direction
of motion (negative velocity means the next index, positive the previous),
clamped at the ends of a sequence of length `len`. -/
noncomputable def specStepIndex (idx len : Nat) (v : ℝ) : Nat :=
  if v < 0 then min (idx + 1) (len - 1) else idx - 1

/-- Spec-side position-dominant rule: index of the first threshold the
fraction does not exceed, or the last index when none matches. -/
noncomputable def specPositionIndex (thresholds : List ℝ) (frac : ℝ) : Nat :=
  min (thresholds.findIdx (fun t => decide (frac ≤ t))) (thresholds.length - 1)

/-- Spec-side snap-point selector: the rule of the spec stated at the level of
the extent fraction and the index of the current snap point. -/
noncomputable def selectTarget (isMobile : Bool) (frac v : ℝ) (currentIdx : Nat) : String :=
  let thr : ℝ := if isMobile then 0.3 else 0.5
  let ths : List ℝ := if isMobile then [0.1, 0.3, 0.7] else [0.1, 0.35, 0.75]
  if thr < |v| then snapPointOrder.getD (specStepIndex currentIdx snapPointOrder.length v) ""
  else snapPointOrder.getD (specPositionIndex ths frac) ""

lemma jsIndexOf_closed : jsIndexOf snapPointOrder "closed" = 0 := rfl

lemma jsIndexOf_half : jsIndexOf snapPointOrder "half-open" = 1 := rfl

lemma jsIndexOf_full : jsIndexOf snapPointOrder "fully-open" = 2 := rfl

/-- C1: for a current snap point that is a member of the ordered sequence,
`determineTargetSnapPoint` agrees with the spec's selector: above the
device-specific velocity threshold it moves exactly one index in the
direction of motion, clamped at the sequence ends; otherwise it returns the
first snap point whose device-specific position threshold the current extent
fraction does not exceed, or the last snap point when none matches. -/
lemma snapPointOrder_length : snapPointOrder.length = 3 := rfl

lemma indexOf_closed : snapPointOrder.indexOf "closed" = 0 := rfl

lemma indexOf_half : snapPointOrder.indexOf "half-open" = 1 := rfl

lemma indexOf_full : snapPointOrder.indexOf "fully-open" = 2 := rfl

theorem determineTarget_matches_selectTarget (m : Bool) (vh : ℝ) (cur : String)
    (h : Height) (v : ℝ) (hmem : cur ∈ snapPointOrder) :
    determineTargetSnapPoint m vh cur h v =
      selectTarget m (heightFraction vh h) v (snapPointOrder.indexOf cur) := by
  have hcases : cur = "closed" ∨ cur = "half-open" ∨ cur = "fully-open" := by
    simpa [snapPointOrder] using hmem
  rcases hcases with rfl | rfl | rfl <;> cases m <;>
    · simp only [determineTargetSnapPoint, selectTarget, jsIndexOf_closed, jsIndexOf_half,
        jsIndexOf_full, indexOf_closed, indexOf_half, indexOf_full, snapPointOrder_length]
      norm_num
      split_ifs with h1 h2
      · simp [specStepIndex, h2, snapPointOrder]
      · simp [specStepIndex, h2, snapPointOrder]
      · simp only [specPositionIndex, snapPointOrder, snapLoop, List.zip, List.zipWith,
          List.findIdx_cons, List.findIdx_nil, List.length_cons, List.length_nil,
          Bool.cond_eq_ite, decide_eq_true_eq]
        split_ifs <;> simp

/-- Witness for C1: the theorem instantiated at the desktop class, a current
snap point of half-open, an extent of 50 percent and zero velocity. -/
theorem determineTarget_matches_selectTarget_witness :
    "half-open" ∈ snapPointOrder ∧
    determineTargetSnapPoint false 800 "half-open" (.percent 50) 0 =
      selectTarget false (heightFraction 800 (.percent 50)) 0
        (snapPointOrder.indexOf "half-open") :=
  ⟨by simp [snapPointOrder],
    determineTarget_matches_selectTarget false 800 "half-open" (.percent 50) 0
      (by simp [snapPointOrder])⟩

lemma jsIndexOf_other (cur : String) (h1 : cur ≠ "closed") (h2 : cur ≠ "half-open")
    (h3 : cur ≠ "fully-open") : jsIndexOf snapPointOrder cur = -1 := by
  simp [jsIndexOf, snapPointOrder, List.findIdx?, Ne.symm h1, Ne.symm h2, Ne.symm h3]

/-- C8 (amended): `determineTargetSnapPoint` is total over all inputs
(it is a Lean function, and every branch of the source returns a value for
boundary fractions 0 and 1 as well), and its result is always a member of the
hard-coded sequence `['closed', 'half-open', 'fully-open']` — not of the
caller-supplied `snapPoints` prop, which the source never reads. -/
theorem determineTarget_mem_snapPointOrder (m : Bool) (vh : ℝ) (cur : String)
    (h : Height) (v : ℝ) :
    determineTargetSnapPoint m vh cur h v ∈ snapPointOrder := by
  by_cases h1 : cur = "closed"
  · subst h1
    cases m <;>
      · simp only [determineTargetSnapPoint, jsIndexOf_closed, snapPointOrder_length]
        norm_num
        split_ifs <;> simp [snapPointOrder, snapLoop] <;> split_ifs <;> simp_all
  · by_cases h2 : cur = "half-open"
    · subst h2
      cases m <;>
        · simp only [determineTargetSnapPoint, jsIndexOf_half, snapPointOrder_length]
          norm_num
          split_ifs <;> simp [snapPointOrder, snapLoop] <;> split_ifs <;> simp_all
    · by_cases h3 : cur = "fully-open"
      · subst h3
        cases m <;>
          · simp only [determineTargetSnapPoint, jsIndexOf_full, snapPointOrder_length]
            norm_num
            split_ifs <;> simp [snapPointOrder, snapLoop] <;> split_ifs <;> simp_all
      · cases m <;>
          · simp only [determineTargetSnapPoint, jsIndexOf_other cur h1 h2 h3, snapPointOrder_length]
            norm_num
            split_ifs <;> simp [snapPointOrder, snapLoop] <;> split_ifs <;> simp_all

/-- Counterexample for C8 as stated: with the caller-supplied snap-point
sequence `['a', 'b']` and current snap point `'a'` (a member of that
sequence), the selector returns `'fully-open'`, which is not a member of the
supplied sequence — the source consults only its hard-coded order. -/
theorem selector_result_not_in_supplied_snapPoints :
    (let s := { isOpen := true, closeOnEscape := true, snapPoints := ["a", "b"],
                currentSnapPoint := "a", isDragging := false, startY := 0, currentY := 0,
                isAnimating := false, animationProgress := 0, targetHeight := .percent 50,
                startHeight := .percent 50, dragVelocity := 0, lastDragY := 0,
                lastDragTime := 0, isMobile := false, isTablet := false,
                viewportHeight := 800, viewportWidth := 1024, velocityWindow := [],
                animTarget := "a", animStartTime := 0, animDuration := 600,
                announcements := [], closeCalls := 0 : MState }
     determineTargetSnapPoint s.isMobile s.viewportHeight s.currentSnapPoint
        (.percent 50) 0 = "fully-open" ∧
      "fully-open" ∉ s.snapPoints) := by
  constructor
  · simp only [determineTargetSnapPoint, heightFraction]
    rw [jsIndexOf_other "a" (by simp) (by simp) (by simp)]
    norm_num
    simp [snapPointOrder, snapLoop]
    norm_num
  · simp

/-! Velocity estimator (C2). -/

/-- Spec-side velocity formula: newest minus oldest position over newest
minus oldest time, from the window's first and last entries; 0 when the
window has fewer than two samples or the elapsed time is not strictly
positive. -/
noncomputable def specVelocity : List Sample → ℝ
  | [] => 0
  | [_] => 0
  | oldest :: b :: t =>
    let newest := (b :: t).getLast (List.cons_ne_nil b t)
    if 0 < newest.time - oldest.time then
      (newest.y - oldest.y) / (newest.time - oldest.time)
    else 0

lemma pushSample_length_le (w : List Sample) (s : Sample) (hw : w.length ≤ 5) :
    (pushSample w s).length ≤ 5 := by
  simp only [pushSample, List.length_append, List.length_cons, List.length_nil]
  split_ifs with h
  · simp only [List.length_tail, List.length_append, List.length_cons, List.length_nil]
    omega
  · simp only [List.length_append, List.length_cons, List.length_nil] at h ⊢
    omega

lemma foldl_pushSample_eq_drop (obs : List Sample) :
    ∀ w : List Sample, w.length ≤ 5 →
      obs.foldl pushSample w = (w ++ obs).drop (w.length + obs.length - 5) := by
  induction obs with
  | nil =>
    intro w hw
    simp only [List.foldl_nil, List.append_nil, List.length_nil, Nat.add_zero]
    rw [Nat.sub_eq_zero_of_le hw, List.drop_zero]
  | cons s rest ih =>
    intro w hw
    rw [List.foldl_cons, ih (pushSample w s) (pushSample_length_le w s hw)]
    have hL : (w ++ [s]) ++ rest = w ++ s :: rest := by simp
    by_cases h : 5 < w.length + 1
    · have hp : pushSample w s = (w ++ [s]).drop 1 := by
        simp only [pushSample]
        rw [if_pos (by simpa using h), ← List.drop_one]
      rw [hp, ← List.drop_append_of_le_length (by simp), List.drop_drop, hL]
      congr 1
      simp only [List.length_drop, List.length_append, List.length_cons, List.length_nil]
      omega
    · have hp : pushSample w s = w ++ [s] := by
        simp only [pushSample]
        rw [if_neg (by simpa using h)]
      rw [hp, hL]
      congr 1
      simp only [List.length_append, List.length_cons, List.length_nil]
      omega

lemma observeAll_fst (obs : List Sample) :
    (observeAll obs).1 = obs.foldl pushSample [] := by
  suffices h : ∀ p : List Sample × ℝ,
      (obs.foldl (fun acc s => calculateVelocity acc.1 s.y s.time) p).1 =
        obs.foldl pushSample p.1 by
    exact h ([], 0)
  induction obs with
  | nil => intro p; rfl
  | cons s rest ih =>
    intro p
    rw [List.foldl_cons, List.foldl_cons, ih]
    rfl

lemma observeAll_snd (obs : List Sample) :
    (observeAll obs).2 = windowVelocity (observeAll obs).1 := by
  suffices h : ∀ p : List Sample × ℝ, p.2 = windowVelocity p.1 →
      (obs.foldl (fun acc s => calculateVelocity acc.1 s.y s.time) p).2 =
        windowVelocity (obs.foldl (fun acc s => calculateVelocity acc.1 s.y s.time) p).1 by
    apply h
    simp [windowVelocity]
  induction obs with
  | nil => intro p hp; simpa using hp
  | cons s rest ih =>
    intro p hp
    exact ih _ rfl

lemma windowVelocity_eq_specVelocity (w : List Sample) :
    windowVelocity w = specVelocity w := by
  match w with
  | [] => simp [windowVelocity, specVelocity]
  | [a] => simp [windowVelocity, specVelocity]
  | a :: b :: t =>
    have h2 : 2 ≤ (a :: b :: t).length := by simp
    have hlast : (a :: b :: t).getLastD ⟨0, 0⟩ = (b :: t).getLast (List.cons_ne_nil b t) := by
      rw [List.getLastD_cons]
      rw [List.getLastD_eq_getLast?]
      rw [List.getLast?_eq_getLast (b :: t) (List.cons_ne_nil b t)]
      rfl
    simp only [windowVelocity, specVelocity, if_pos h2, List.headD_cons, hlast]

/-- C2: feeding any sequence of observations to the estimator leaves a window
that is exactly the last-at-most-5 samples of the sequence in order (the
oldest evicted first), and the velocity returned by the last observation is
the spec's formula on that window: newest minus oldest position over newest
minus oldest time, and exactly 0 when the window has fewer than two samples
or the elapsed time is not strictly positive. -/
theorem calculateVelocity_spec (obs : List Sample) :
    (observeAll obs).1 = obs.drop (obs.length - 5) ∧
    (observeAll obs).2 = specVelocity (obs.drop (obs.length - 5)) := by
  have h1 : (observeAll obs).1 = obs.drop (obs.length - 5) := by
    rw [observeAll_fst, foldl_pushSample_eq_drop obs [] (by simp)]
    simp
  refine ⟨h1, ?_⟩
  rw [observeAll_snd, h1, windowVelocity_eq_specVelocity]

/-! Spring easing (C3, C10). -/

lemma springEase_zero (c : SpringConfig) : springEase c 0 = 0 := by
  simp only [springEase]
  split_ifs <;> simp

lemma springEase_eq_under (c : SpringConfig) (h : zetaOf c < 1) (t : ℝ) :
    springEase c t =
      1 - Real.exp (-(zetaOf c * omegaOf c * t)) *
        (Real.cos (omegaOf c * Real.sqrt (1 - zetaOf c * zetaOf c) * t) +
          zetaOf c * omegaOf c / (omegaOf c * Real.sqrt (1 - zetaOf c * zetaOf c)) *
            Real.sin (omegaOf c * Real.sqrt (1 - zetaOf c * zetaOf c) * t)) := by
  simp only [springEase, if_pos h]
  rw [show -zetaOf c * omegaOf c * t = -(zetaOf c * omegaOf c * t) from by ring]

lemma springEase_eq_over (c : SpringConfig) (h : 1 ≤ zetaOf c) (t : ℝ) :
    springEase c t =
      1 - Real.exp (-(zetaOf c * omegaOf c * t)) *
        (Real.cosh (omegaOf c * Real.sqrt (zetaOf c * zetaOf c - 1) * t) +
          zetaOf c * omegaOf c / (omegaOf c * Real.sqrt (zetaOf c * zetaOf c - 1)) *
            Real.sinh (omegaOf c * Real.sqrt (zetaOf c * zetaOf c - 1) * t)) := by
  simp only [springEase, if_neg (not_lt.mpr h)]
  rw [show -zetaOf c * omegaOf c * t = -(zetaOf c * omegaOf c * t) from by ring]

lemma tendsto_exp_neg_mul_bounded {a C : ℝ} (ha : 0 < a) {g : ℝ → ℝ}
    (hg : ∀ᶠ t in Filter.atTop, |g t| ≤ C) :
    Filter.Tendsto (fun t => Real.exp (-(a * t)) * g t) Filter.atTop (nhds 0) := by
  have hb : Filter.Tendsto (fun t : ℝ => C * Real.exp (-(a * t))) Filter.atTop (nhds 0) := by
    have h1 : Filter.Tendsto (fun t : ℝ => a * t) Filter.atTop Filter.atTop :=
      Filter.Tendsto.const_mul_atTop ha Filter.tendsto_id
    have h2 := Real.tendsto_exp_neg_atTop_nhds_zero.comp h1
    simpa [Function.comp] using h2.const_mul C
  apply squeeze_zero_norm' ?_ hb
  filter_upwards [hg] with t ht
  rw [Real.norm_eq_abs, abs_mul, abs_of_pos (Real.exp_pos _)]
  calc Real.exp (-(a * t)) * |g t| ≤ Real.exp (-(a * t)) * C :=
        mul_le_mul_of_nonneg_left ht (Real.exp_pos _).le
    _ = C * Real.exp (-(a * t)) := mul_comm _ _

lemma omegaOf_pos (c : SpringConfig) (ht : 0 < c.tension) (hm : 0 < c.mass) :
    0 < omegaOf c :=
  Real.sqrt_pos.mpr (div_pos ht hm)

lemma zetaOf_pos (c : SpringConfig) (ht : 0 < c.tension) (hf : 0 < c.friction)
    (hm : 0 < c.mass) : 0 < zetaOf c :=
  div_pos hf (mul_pos two_pos (Real.sqrt_pos.mpr (mul_pos ht hm)))

lemma springEase_tendsto_under (c : SpringConfig) (hz : zetaOf c < 1)
    (hzpos : 0 < zetaOf c) (hopos : 0 < omegaOf c) :
    Filter.Tendsto (springEase c) Filter.atTop (nhds 1) := by
  have hapos : 0 < zetaOf c * omegaOf c := mul_pos hzpos hopos
  have hkey : Filter.Tendsto
      (fun t => Real.exp (-(zetaOf c * omegaOf c * t)) *
        (Real.cos (omegaOf c * Real.sqrt (1 - zetaOf c * zetaOf c) * t) +
          zetaOf c * omegaOf c / (omegaOf c * Real.sqrt (1 - zetaOf c * zetaOf c)) *
            Real.sin (omegaOf c * Real.sqrt (1 - zetaOf c * zetaOf c) * t)))
      Filter.atTop (nhds 0) := by
    apply tendsto_exp_neg_mul_bounded hapos
    filter_upwards with t
    calc |Real.cos (omegaOf c * Real.sqrt (1 - zetaOf c * zetaOf c) * t) +
          zetaOf c * omegaOf c / (omegaOf c * Real.sqrt (1 - zetaOf c * zetaOf c)) *
            Real.sin (omegaOf c * Real.sqrt (1 - zetaOf c * zetaOf c) * t)| ≤
        |Real.cos (omegaOf c * Real.sqrt (1 - zetaOf c * zetaOf c) * t)| +
          |zetaOf c * omegaOf c / (omegaOf c * Real.sqrt (1 - zetaOf c * zetaOf c)) *
            Real.sin (omegaOf c * Real.sqrt (1 - zetaOf c * zetaOf c) * t)| := abs_add _ _
      _ ≤ 1 + |zetaOf c * omegaOf c / (omegaOf c * Real.sqrt (1 - zetaOf c * zetaOf c))| := by
          refine add_le_add (Real.abs_cos_le_one _) ?_
          rw [abs_mul]
          exact mul_le_of_le_one_right (abs_nonneg _) (Real.abs_sin_le_one _)
  have h2 := (tendsto_const_nhds (x := (1 : ℝ)) (f := Filter.atTop)).sub hkey
  rw [sub_zero] at h2
  exact Filter.Tendsto.congr (fun t => (springEase_eq_under c hz t).symm) h2

lemma springEase_tendsto_over (c : SpringConfig) (hz : 1 ≤ zetaOf c)
    (hopos : 0 < omegaOf c) :
    Filter.Tendsto (springEase c) Filter.atTop (nhds 1) := by
  have hzpos : 0 < zetaOf c := lt_of_lt_of_le one_pos hz
  have hsq : Real.sqrt (zetaOf c * zetaOf c - 1) < zetaOf c :=
    (Real.sqrt_lt' hzpos).mpr (by nlinarith)
  have homegaN_nonneg : 0 ≤ omegaOf c * Real.sqrt (zetaOf c * zetaOf c - 1) :=
    mul_nonneg hopos.le (Real.sqrt_nonneg _)
  have hco_nonneg :
      0 ≤ zetaOf c * omegaOf c / (omegaOf c * Real.sqrt (zetaOf c * zetaOf c - 1)) :=
    div_nonneg (mul_nonneg hzpos.le hopos.le) homegaN_nonneg
  have hlt : omegaOf c * Real.sqrt (zetaOf c * zetaOf c - 1) < zetaOf c * omegaOf c := by
    have h1 := mul_lt_mul_of_pos_left hsq hopos
    linarith [mul_comm (omegaOf c) (zetaOf c)]
  have hapos : 0 < zetaOf c * omegaOf c - omegaOf c * Real.sqrt (zetaOf c * zetaOf c - 1) :=
    sub_pos.mpr hlt
  have hbound : ∀ᶠ t in Filter.atTop,
      |Real.exp (-(omegaOf c * Real.sqrt (zetaOf c * zetaOf c - 1) * t)) *
        (Real.cosh (omegaOf c * Real.sqrt (zetaOf c * zetaOf c - 1) * t) +
          zetaOf c * omegaOf c / (omegaOf c * Real.sqrt (zetaOf c * zetaOf c - 1)) *
            Real.sinh (omegaOf c * Real.sqrt (zetaOf c * zetaOf c - 1) * t))| ≤
      1 + zetaOf c * omegaOf c / (omegaOf c * Real.sqrt (zetaOf c * zetaOf c - 1)) := by
    filter_upwards [Filter.eventually_ge_atTop (0 : ℝ)] with t ht
    set x := omegaOf c * Real.sqrt (zetaOf c * zetaOf c - 1) * t with hxdef
    set co := zetaOf c * omegaOf c / (omegaOf c * Real.sqrt (zetaOf c * zetaOf c - 1)) with hcodef
    have hx : 0 ≤ x := mul_nonneg homegaN_nonneg ht
    have hfe : Real.exp (-x) ≤ Real.exp x := Real.exp_le_exp.mpr (by linarith)
    have hsinh : 0 ≤ Real.sinh x := by
      rw [Real.sinh_eq]
      linarith
    have hcosh : 0 < Real.cosh x := Real.cosh_pos x
    have hup : Real.cosh x + co * Real.sinh x ≤ (1 + co) * Real.exp x := by
      rw [Real.cosh_eq, Real.sinh_eq]
      nlinarith [mul_nonneg hco_nonneg (Real.exp_pos (-x)).le,
        mul_nonneg hco_nonneg (Real.exp_pos x).le]
    have hlow : 0 ≤ Real.cosh x + co * Real.sinh x := by
      nlinarith [mul_nonneg hco_nonneg hsinh]
    rw [abs_of_nonneg (mul_nonneg (Real.exp_pos _).le hlow)]
    calc Real.exp (-x) * (Real.cosh x + co * Real.sinh x) ≤
          Real.exp (-x) * ((1 + co) * Real.exp x) :=
            mul_le_mul_of_nonneg_left hup (Real.exp_pos _).le
      _ = (1 + co) * (Real.exp (-x) * Real.exp x) := by ring
      _ = 1 + co := by rw [← Real.exp_add]; simp
  have hkey := tendsto_exp_neg_mul_bounded hapos hbound
  have hsplit : ∀ t : ℝ,
      Real.exp (-((zetaOf c * omegaOf c - omegaOf c * Real.sqrt (zetaOf c * zetaOf c - 1)) * t)) *
        (Real.exp (-(omegaOf c * Real.sqrt (zetaOf c * zetaOf c - 1) * t)) *
          (Real.cosh (omegaOf c * Real.sqrt (zetaOf c * zetaOf c - 1) * t) +
            zetaOf c * omegaOf c / (omegaOf c * Real.sqrt (zetaOf c * zetaOf c - 1)) *
              Real.sinh (omegaOf c * Real.sqrt (zetaOf c * zetaOf c - 1) * t))) =
      Real.exp (-(zetaOf c * omegaOf c * t)) *
        (Real.cosh (omegaOf c * Real.sqrt (zetaOf c * zetaOf c - 1) * t) +
          zetaOf c * omegaOf c / (omegaOf c * Real.sqrt (zetaOf c * zetaOf c - 1)) *
            Real.sinh (omegaOf c * Real.sqrt (zetaOf c * zetaOf c - 1) * t)) := by
    intro t
    rw [← mul_assoc, ← Real.exp_add]
    congr 2
    ring
  have hkey2 := Filter.Tendsto.congr hsplit hkey
  have h2 := (tendsto_const_nhds (x := (1 : ℝ)) (f := Filter.atTop)).sub hkey2
  rw [sub_zero] at h2
  exact Filter.Tendsto.congr (fun t => (springEase_eq_over c hz t).symm) h2

/-- C3: for any positive spring parameters, the easing starts at 0, equals the
stated closed-form damped-oscillator step response in each damping regime
(the cos/sin form when the damping ratio is below 1, the cosh/sinh form
otherwise), and approaches 1 as time grows. -/
theorem springEase_spec (tension friction mass : ℝ)
    (ht : 0 < tension) (hf : 0 < friction) (hm : 0 < mass) :
    springEase ⟨tension, friction, mass⟩ 0 = 0 ∧
    (zetaOf ⟨tension, friction, mass⟩ < 1 → ∀ t,
      springEase ⟨tension, friction, mass⟩ t =
        1 - Real.exp (-(zetaOf ⟨tension, friction, mass⟩ *
              omegaOf ⟨tension, friction, mass⟩ * t)) *
          (Real.cos (omegaOf ⟨tension, friction, mass⟩ *
              Real.sqrt (1 - zetaOf ⟨tension, friction, mass⟩ *
                zetaOf ⟨tension, friction, mass⟩) * t) +
            zetaOf ⟨tension, friction, mass⟩ * omegaOf ⟨tension, friction, mass⟩ /
                (omegaOf ⟨tension, friction, mass⟩ *
                  Real.sqrt (1 - zetaOf ⟨tension, friction, mass⟩ *
                    zetaOf ⟨tension, friction, mass⟩)) *
              Real.sin (omegaOf ⟨tension, friction, mass⟩ *
                Real.sqrt (1 - zetaOf ⟨tension, friction, mass⟩ *
                  zetaOf ⟨tension, friction, mass⟩) * t))) ∧
    (1 ≤ zetaOf ⟨tension, friction, mass⟩ → ∀ t,
      springEase ⟨tension, friction, mass⟩ t =
        1 - Real.exp (-(zetaOf ⟨tension, friction, mass⟩ *
              omegaOf ⟨tension, friction, mass⟩ * t)) *
          (Real.cosh (omegaOf ⟨tension, friction, mass⟩ *
              Real.sqrt (zetaOf ⟨tension, friction, mass⟩ *
                zetaOf ⟨tension, friction, mass⟩ - 1) * t) +
            zetaOf ⟨tension, friction, mass⟩ * omegaOf ⟨tension, friction, mass⟩ /
                (omegaOf ⟨tension, friction, mass⟩ *
                  Real.sqrt (zetaOf ⟨tension, friction, mass⟩ *
                    zetaOf ⟨tension, friction, mass⟩ - 1)) *
              Real.sinh (omegaOf ⟨tension, friction, mass⟩ *
                Real.sqrt (zetaOf ⟨tension, friction, mass⟩ *
                  zetaOf ⟨tension, friction, mass⟩ - 1) * t))) ∧
    Filter.Tendsto (springEase ⟨tension, friction, mass⟩) Filter.atTop (nhds 1) := by
  refine ⟨springEase_zero _, fun h t => springEase_eq_under _ h t,
    fun h t => springEase_eq_over _ h t, ?_⟩
  have hzpos : 0 < zetaOf ⟨tension, friction, mass⟩ := zetaOf_pos _ ht hf hm
  have hopos : 0 < omegaOf ⟨tension, friction, mass⟩ := omegaOf_pos _ ht hm
  by_cases hz : zetaOf ⟨tension, friction, mass⟩ < 1
  · exact springEase_tendsto_under _ hz hzpos hopos
  · exact springEase_tendsto_over _ (not_lt.mp hz) hopos

/-- Witness for C3: the theorem instantiated at tension 1, friction 1,
mass 1 (damping ratio one half). -/
theorem springEase_spec_witness :
    (0 : ℝ) < 1 ∧
    (springEase ⟨1, 1, 1⟩ 0 = 0 ∧
      (zetaOf ⟨1, 1, 1⟩ < 1 → ∀ t,
        springEase ⟨1, 1, 1⟩ t =
          1 - Real.exp (-(zetaOf ⟨1, 1, 1⟩ * omegaOf ⟨1, 1, 1⟩ * t)) *
            (Real.cos (omegaOf ⟨1, 1, 1⟩ *
                Real.sqrt (1 - zetaOf ⟨1, 1, 1⟩ * zetaOf ⟨1, 1, 1⟩) * t) +
              zetaOf ⟨1, 1, 1⟩ * omegaOf ⟨1, 1, 1⟩ /
                  (omegaOf ⟨1, 1, 1⟩ *
                    Real.sqrt (1 - zetaOf ⟨1, 1, 1⟩ * zetaOf ⟨1, 1, 1⟩)) *
                Real.sin (omegaOf ⟨1, 1, 1⟩ *
                  Real.sqrt (1 - zetaOf ⟨1, 1, 1⟩ * zetaOf ⟨1, 1, 1⟩) * t))) ∧
      (1 ≤ zetaOf ⟨1, 1, 1⟩ → ∀ t,
        springEase ⟨1, 1, 1⟩ t =
          1 - Real.exp (-(zetaOf ⟨1, 1, 1⟩ * omegaOf ⟨1, 1, 1⟩ * t)) *
            (Real.cosh (omegaOf ⟨1, 1, 1⟩ *
                Real.sqrt (zetaOf ⟨1, 1, 1⟩ * zetaOf ⟨1, 1, 1⟩ - 1) * t) +
              zetaOf ⟨1, 1, 1⟩ * omegaOf ⟨1, 1, 1⟩ /
                  (omegaOf ⟨1, 1, 1⟩ *
                    Real.sqrt (zetaOf ⟨1, 1, 1⟩ * zetaOf ⟨1, 1, 1⟩ - 1)) *
                Real.sinh (omegaOf ⟨1, 1, 1⟩ *
                  Real.sqrt (zetaOf ⟨1, 1, 1⟩ * zetaOf ⟨1, 1, 1⟩ - 1) * t))) ∧
      Filter.Tendsto (springEase ⟨1, 1, 1⟩) Filter.atTop (nhds 1)) :=
  ⟨by norm_num, springEase_spec 1 1 1 (by norm_num) (by norm_num) (by norm_num)⟩

lemma zetaOf_lt_one (c : SpringConfig) (ht : 0 < c.tension) (hf : 0 < c.friction)
    (hm : 0 < c.mass) (h : c.friction ^ 2 < 4 * (c.tension * c.mass)) :
    zetaOf c < 1 := by
  have hs : 0 < Real.sqrt (c.tension * c.mass) := Real.sqrt_pos.mpr (mul_pos ht hm)
  rw [zetaOf, div_lt_one (by linarith)]
  have h2 : c.friction / 2 < Real.sqrt (c.tension * c.mass) :=
    (Real.lt_sqrt (by positivity)).mpr (by nlinarith)
  linarith

/-- C10: both spring parameter sets the program can produce (mobile and
non-mobile) satisfy friction squared less than 4 times tension times mass,
their damping ratio is strictly below 1, and `springEase` therefore always
evaluates the underdamped cos/sin branch for every device class. -/
theorem springConfigs_underdamped (m : Bool) :
    (getSpringConfig m).friction ^ 2 <
      4 * ((getSpringConfig m).tension * (getSpringConfig m).mass) ∧
    zetaOf (getSpringConfig m) < 1 ∧
    ∀ t, springEase (getSpringConfig m) t =
      1 - Real.exp (-(zetaOf (getSpringConfig m) * omegaOf (getSpringConfig m) * t)) *
        (Real.cos (omegaOf (getSpringConfig m) *
            Real.sqrt (1 - zetaOf (getSpringConfig m) * zetaOf (getSpringConfig m)) * t) +
          zetaOf (getSpringConfig m) * omegaOf (getSpringConfig m) /
              (omegaOf (getSpringConfig m) *
                Real.sqrt (1 - zetaOf (getSpringConfig m) * zetaOf (getSpringConfig m))) *
            Real.sin (omegaOf (getSpringConfig m) *
              Real.sqrt (1 - zetaOf (getSpringConfig m) * zetaOf (getSpringConfig m)) * t)) := by
  have hsq : (getSpringConfig m).friction ^ 2 <
      4 * ((getSpringConfig m).tension * (getSpringConfig m).mass) := by
    cases m <;> norm_num [getSpringConfig]
  have hz : zetaOf (getSpringConfig m) < 1 := by
    refine zetaOf_lt_one _ ?_ ?_ ?_ hsq <;> cases m <;> norm_num [getSpringConfig]
  exact ⟨hsq, hz, springEase_eq_under _ hz⟩

/-! State-machine claims (C4, C5, C6, C7, C9). -/

/-- Dormant desktop state resting at half-open, used as the base of the
concrete states in the witnesses and counterexamples below. -/
noncomputable def baseState : MState :=
  { isOpen := true, closeOnEscape := true, snapPoints := snapPointOrder,
    currentSnapPoint := "half-open", isDragging := false, startY := 0, currentY := 0,
    isAnimating := false, animationProgress := 0, targetHeight := .percent 50,
    startHeight := .percent 50, dragVelocity := 0, lastDragY := 0, lastDragTime := 0,
    isMobile := false, isTablet := false, viewportHeight := 800, viewportWidth := 1024,
    velocityWindow := [], animTarget := "half-open", animStartTime := 0,
    animDuration := 600, announcements := [], closeCalls := 0 }

/-- Counterexample for C4 as stated: with no transition running and the
current snap point already fully-open, the Home key's request
`animateToSnapPoint('fully-open')` is not a no-op — the source checks only
`isAnimating`, never whether the target equals the current snap point, so a
self-transition starts. -/
theorem animateToSnapPoint_self_target_not_noop :
    ({ baseState with currentSnapPoint := "fully-open" } : MState).isAnimating = false ∧
    (handleKeyDown { baseState with currentSnapPoint := "fully-open" } "Home" 0).isAnimating
        = true ∧
    handleKeyDown { baseState with currentSnapPoint := "fully-open" } "Home" 0 ≠
      { baseState with currentSnapPoint := "fully-open" } := by
  refine ⟨rfl, rfl, ?_⟩
  intro h
  have h1 : (handleKeyDown { baseState with currentSnapPoint := "fully-open" }
      "Home" 0).isAnimating = true := rfl
  rw [h] at h1
  exact Bool.noConfusion h1

/-- C4 (amended): a transition request while a transition is Running is a
silent no-op — the state, and with it the in-flight transition's captured
start/target data, is unchanged — and a request whose target equals the
current snap point is suppressed at the snap-point-button call site; but
`animateToSnapPoint` itself performs no such check, so keyboard Home/End
requests whose target equals the current snap point start a
self-transition. -/
theorem transition_request_noop_rules (s : MState) (target : String) (now : ℝ) :
    (s.isAnimating = true → animateToSnapPoint s target now = s) ∧
    (target = s.currentSnapPoint → handleSnapPointClick s target now = s) := by
  constructor
  · intro h
    simp [animateToSnapPoint, h]
  · intro h
    simp [handleSnapPointClick, h]

/-- Witness for C4's amended theorem: a running transition ignores a new
request, and a button click on the current snap point is ignored. -/
theorem transition_request_noop_rules_witness :
    animateToSnapPoint { baseState with isAnimating := true } "closed" 0 =
      { baseState with isAnimating := true } ∧
    handleSnapPointClick baseState "half-open" 0 = baseState :=
  ⟨(transition_request_noop_rules { baseState with isAnimating := true } "closed" 0).1 rfl,
    (transition_request_noop_rules baseState "half-open" 0).2 rfl⟩

/-- C5: a frame of a running transition whose linear progress reaches 1
commits: the current snap point becomes the target, the animator returns to
Idle, the velocity state is reset, and exactly one settle notification naming
the target fires; a frame below 1 and the transition request itself fire no
notification. -/
theorem transition_completion (s : MState) (now : ℝ) (hd : 0 < s.animDuration) :
    (s.isAnimating = true → s.animDuration ≤ now - s.animStartTime →
      (animateFrame s now).isAnimating = false ∧
      (animateFrame s now).currentSnapPoint = s.animTarget ∧
      (animateFrame s now).velocityWindow = [] ∧
      (animateFrame s now).dragVelocity = 0 ∧
      (animateFrame s now).announcements = s.announcements ++ [s.animTarget]) ∧
    (now - s.animStartTime < s.animDuration →
      (animateFrame s now).isAnimating = s.isAnimating ∧
      (animateFrame s now).currentSnapPoint = s.currentSnapPoint ∧
      (animateFrame s now).announcements = s.announcements) ∧
    (∀ target, (animateToSnapPoint s target now).announcements = s.announcements) := by
  refine ⟨?_, ?_, ?_⟩
  · intro _ hdone
    have hnot : ¬ (now - s.animStartTime) / s.animDuration < 1 := by
      rw [div_lt_one hd]
      exact not_lt.mpr hdone
    simp [animateFrame, hnot]
  · intro hlt
    have hyes : (now - s.animStartTime) / s.animDuration < 1 := (div_lt_one hd).mpr hlt
    simp [animateFrame, hyes]
  · intro target
    by_cases h : s.isAnimating <;> simp [animateToSnapPoint, h]

/-- Running transition to fully-open used by the C5 and C9 witnesses. -/
noncomputable def runningState : MState :=
  { baseState with isAnimating := true, animTarget := "fully-open" }

/-- Witness for C5: a running transition to fully-open, with the frame
arriving exactly at the duration. -/
theorem transition_completion_witness :
    (0 : ℝ) < runningState.animDuration ∧
    runningState.isAnimating = true ∧
    runningState.animDuration ≤ 600 - runningState.animStartTime ∧
    ((animateFrame runningState 600).isAnimating = false ∧
      (animateFrame runningState 600).currentSnapPoint = runningState.animTarget ∧
      (animateFrame runningState 600).velocityWindow = [] ∧
      (animateFrame runningState 600).dragVelocity = 0 ∧
      (animateFrame runningState 600).announcements =
        runningState.announcements ++ [runningState.animTarget]) :=
  ⟨by norm_num [runningState, baseState], rfl, by norm_num [runningState, baseState],
    (transition_completion runningState 600 (by norm_num [runningState, baseState])).1 rfl
      (by norm_num [runningState, baseState])⟩

lemma getCurrentHeight_drag (s : MState) :
    getCurrentHeight { s with isDragging := false } = getCurrentHeight s := rfl

/-- Dragging desktop state at half-open with one recorded velocity sample,
used by the C6 counterexample. -/
noncomputable def dragState : MState :=
  { baseState with isDragging := true, velocityWindow := [⟨100, 10⟩] }

lemma determineTarget_eval_half :
    determineTargetSnapPoint false 800 "half-open" (.percent 50) 0 = "fully-open" := by
  simp only [determineTargetSnapPoint, jsIndexOf_half, heightFraction, snapPointOrder_length]
  norm_num
  simp [snapPointOrder, snapLoop]
  norm_num

/-- Counterexample for C6 as stated: ending a gesture does not clear the
velocity sample history — `handleTouchEnd` never touches `velocityRef`; the
recorded sample survives the gesture end (it is cleared only by the next
`handleTouchStart` or by a completed animation frame). -/
theorem handleTouchEnd_keeps_velocity_history :
    dragState.isDragging = true ∧
    (handleTouchEnd dragState 0).velocityWindow = [⟨100, 10⟩] ∧
    ([(⟨100, 10⟩ : Sample)] : List Sample) ≠ [] := by
  refine ⟨rfl, ?_, by simp⟩
  have hh : getCurrentHeight dragState = .percent 50 := by
    simp [getCurrentHeight, dragState, baseState, snapPointConfigOf, getSnapPointConfig]
  simp only [handleTouchEnd, getCurrentHeight_drag]
  rw [if_neg (by simp [dragState, baseState])]
  simp only [dragState, baseState]
  have hs1 : ("half-open" = "closed") = False := by simp
  have hs2 : ("fully-open" = "half-open") = False := by simp
  have hs3 : ("fully-open" = "closed") = False := by simp
  norm_num [getCurrentHeight, snapPointConfigOf, getSnapPointConfig, hs1, hs2, hs3,
    determineTarget_eval_half, animateToSnapPoint]

/-- C6 (amended): ending a gesture with an open session and no running
animation closes the session and selects a target from the current displayed
height and drag velocity; if the target and the current snap point are both
the closed point, `onClose()` is signalled instead of animating; otherwise a
differing target starts a transition to it and an equal target changes
nothing else.  The velocity sample history is NOT cleared at gesture end
(the amendment): it survives until the next gesture start or a completed
animation. -/
theorem handleTouchEnd_spec (s : MState) (now : ℝ)
    (hdrag : s.isDragging = true) (hanim : s.isAnimating = false) :
    (handleTouchEnd s now).isDragging = false ∧
    (handleTouchEnd s now).velocityWindow = s.velocityWindow ∧
    (determineTargetSnapPoint s.isMobile s.viewportHeight s.currentSnapPoint
        (getCurrentHeight s) s.dragVelocity = "closed" ∧ s.currentSnapPoint = "closed" →
      (handleTouchEnd s now).closeCalls = s.closeCalls + 1 ∧
      (handleTouchEnd s now).isAnimating = false) ∧
    (¬ (determineTargetSnapPoint s.isMobile s.viewportHeight s.currentSnapPoint
          (getCurrentHeight s) s.dragVelocity = "closed" ∧ s.currentSnapPoint = "closed") →
      determineTargetSnapPoint s.isMobile s.viewportHeight s.currentSnapPoint
          (getCurrentHeight s) s.dragVelocity ≠ s.currentSnapPoint →
      handleTouchEnd s now =
        animateToSnapPoint { s with isDragging := false }
          (determineTargetSnapPoint s.isMobile s.viewportHeight s.currentSnapPoint
            (getCurrentHeight s) s.dragVelocity) now ∧
      (handleTouchEnd s now).isAnimating = true ∧
      (handleTouchEnd s now).animTarget =
        determineTargetSnapPoint s.isMobile s.viewportHeight s.currentSnapPoint
          (getCurrentHeight s) s.dragVelocity) ∧
    (determineTargetSnapPoint s.isMobile s.viewportHeight s.currentSnapPoint
        (getCurrentHeight s) s.dragVelocity = s.currentSnapPoint →
      s.currentSnapPoint ≠ "closed" →
      handleTouchEnd s now = { s with isDragging := false }) := by
  have hbody : handleTouchEnd s now =
      (if determineTargetSnapPoint s.isMobile s.viewportHeight s.currentSnapPoint
            (getCurrentHeight s) s.dragVelocity = "closed" ∧ s.currentSnapPoint = "closed" then
        { s with isDragging := false, closeCalls := s.closeCalls + 1 }
      else if determineTargetSnapPoint s.isMobile s.viewportHeight s.currentSnapPoint
            (getCurrentHeight s) s.dragVelocity ≠ s.currentSnapPoint then
        animateToSnapPoint { s with isDragging := false }
          (determineTargetSnapPoint s.isMobile s.viewportHeight s.currentSnapPoint
            (getCurrentHeight s) s.dragVelocity) now
      else { s with isDragging := false }) := by
    simp only [handleTouchEnd, getCurrentHeight_drag]
    rw [if_neg (by simp [hdrag, hanim])]
  refine ⟨?_, ?_, ?_, ?_, ?_⟩
  · rw [hbody]
    split_ifs <;> simp [animateToSnapPoint, hanim]
  · rw [hbody]
    split_ifs <;> simp [animateToSnapPoint, hanim]
  · intro h
    rw [hbody, if_pos h]
    exact ⟨rfl, by simp [hanim]⟩
  · intro h hne
    rw [hbody, if_neg h, if_pos hne]
    exact ⟨rfl, by simp [animateToSnapPoint, hanim], by simp [animateToSnapPoint, hanim]⟩
  · intro heq hnc
    rw [hbody, if_neg ?hc, if_neg (not_not_intro heq)]
    case hc =>
      intro hcon
      exact hnc hcon.2

/-- Witness for C6's amended theorem: the dragging state of the C6
counterexample, released at time 0. -/
theorem handleTouchEnd_spec_witness :
    dragState.isDragging = true ∧ dragState.isAnimating = false ∧
    (handleTouchEnd dragState 0).isDragging = false ∧
    (handleTouchEnd dragState 0).velocityWindow = dragState.velocityWindow :=
  ⟨rfl, rfl, (handleTouchEnd_spec dragState 0 rfl rfl).1,
    (handleTouchEnd_spec dragState 0 rfl rfl).2.1⟩

/-- Counterexample for C7 as stated: with a drag session open and no
transition running, the ArrowUp key calls `animateToSnapPoint` — which checks
only `isAnimating`, never `isDragging` — so the transition request is
accepted while the gesture session stays active. -/
theorem keyboard_request_during_drag_accepted :
    ({ baseState with isDragging := true } : MState).isDragging = true ∧
    ({ baseState with isDragging := true } : MState).isAnimating = false ∧
    (handleKeyDown { baseState with isDragging := true } "ArrowUp" 0).isAnimating = true ∧
    (handleKeyDown { baseState with isDragging := true } "ArrowUp" 0).isDragging = true :=
  ⟨rfl, rfl, rfl, rfl⟩

/-- C7 (amended): while a transition is Running, pointer-down and
pointer-move are rejected as no-ops, and so is any further transition
request; but the converse direction of the claim fails — a transition
request during an active gesture session is accepted (see the
counterexample). -/
theorem gesture_rejected_while_animating (s : MState) (y now : ℝ) (target : String)
    (h : s.isAnimating = true) :
    handleTouchStart s y now = s ∧ handleTouchMove s y now = s ∧
    animateToSnapPoint s target now = s := by
  refine ⟨?_, ?_, ?_⟩ <;> simp [handleTouchStart, handleTouchMove, animateToSnapPoint, h]

/-- Witness for C7's amended theorem at a concrete running state. -/
theorem gesture_rejected_while_animating_witness :
    runningState.isAnimating = true ∧
    handleTouchStart runningState 0 0 = runningState ∧
    handleTouchMove runningState 0 0 = runningState ∧
    animateToSnapPoint runningState "closed" 0 = runningState :=
  ⟨rfl, (gesture_rejected_while_animating runningState 0 0 "closed" rfl).1,
    (gesture_rejected_while_animating runningState 0 0 "closed" rfl).2.1,
    (gesture_rejected_while_animating runningState 0 0 "closed" rfl).2.2⟩

/-- Spec-side displayed extent during a transition following the spec's
words: the from/to visual extents are re-evaluated live against the latest
configuration table each frame (from the current snap point's and the
target's rows), with the mixed-unit fallback snapping to the re-evaluated
target extent. -/
noncomputable def liveDisplayedHeight (s : MState) : Height :=
  match (snapPointConfigOf s s.currentSnapPoint).height,
      (snapPointConfigOf s s.animTarget).height with
  | .percent a, .percent b => .percent (a + (b - a) * s.animationProgress)
  | .px a, .px b => .px (a + (b - a) * s.animationProgress)
  | _, toH => toH

/-- Running transition captured on a mobile viewport (closed to half-open,
heights 60px to 60 percent), used by the C9 counterexample. -/
noncomputable def mobileAnimState : MState :=
  animateToSnapPoint
    { baseState with isMobile := true, viewportWidth := 400, currentSnapPoint := "closed" }
    "half-open" 0

/-- Counterexample for C9 as stated: after a resize to a desktop width in
the middle of the transition, the frame still displays the captured target
extent (60 percent, from the mobile table at transition start), not the
latest table's target extent (50 percent) — the start/target heights are
captured in state when the transition starts and never re-evaluated. -/
theorem resize_does_not_retarget_display :
    (handleResize mobileAnimState 1200 800).isAnimating = true ∧
    getCurrentHeight (handleResize mobileAnimState 1200 800) = .percent 60 ∧
    liveDisplayedHeight (handleResize mobileAnimState 1200 800) = .percent 50 ∧
    getCurrentHeight (handleResize mobileAnimState 1200 800) ≠
      liveDisplayedHeight (handleResize mobileAnimState 1200 800) := by
  have hs1 : ("half-open" = "closed") = False := by simp
  have hs2 : ("closed" = "closed") = True := by simp
  refine ⟨rfl, ?_, ?_, ?_⟩
  · norm_num [mobileAnimState, baseState, animateToSnapPoint, handleResize,
      getCurrentHeight, snapPointConfigOf, getSnapPointConfig, hs1, hs2]
  · norm_num [mobileAnimState, baseState, animateToSnapPoint, handleResize,
      liveDisplayedHeight, snapPointConfigOf, getSnapPointConfig, hs1, hs2]
  · intro h
    have h1 : getCurrentHeight (handleResize mobileAnimState 1200 800) = .percent 60 := by
      norm_num [mobileAnimState, baseState, animateToSnapPoint, handleResize,
        getCurrentHeight, snapPointConfigOf, getSnapPointConfig, hs1, hs2]
    have h2 : liveDisplayedHeight (handleResize mobileAnimState 1200 800) = .percent 50 := by
      norm_num [mobileAnimState, baseState, animateToSnapPoint, handleResize,
        liveDisplayedHeight, snapPointConfigOf, getSnapPointConfig, hs1, hs2]
    rw [h1, h2] at h
    have := Height.percent.inj h
    norm_num at this

/-- C9 (amended): a viewport resize during a running transition recomputes
the responsive classification (stored width/height, mobile iff width below
768) and leaves the transition's progress and its captured start/target
extents untouched; while animating, the displayed extent is computed from
those captured extents only, so it is unchanged by the resize — the latest
table takes effect only once the transition commits. -/
theorem resize_preserves_transition (s : MState) (w h : ℝ) :
    (handleResize s w h).isAnimating = s.isAnimating ∧
    (handleResize s w h).animationProgress = s.animationProgress ∧
    (handleResize s w h).startHeight = s.startHeight ∧
    (handleResize s w h).targetHeight = s.targetHeight ∧
    (handleResize s w h).animTarget = s.animTarget ∧
    (handleResize s w h).viewportWidth = w ∧
    (handleResize s w h).viewportHeight = h ∧
    ((handleResize s w h).isMobile = true ↔ w < 768) ∧
    (s.isAnimating = true →
      getCurrentHeight (handleResize s w h) = getCurrentHeight s) := by
  refine ⟨rfl, rfl, rfl, rfl, rfl, rfl, rfl, ?_, ?_⟩
  · simp only [handleResize]
    split_ifs with hw <;> simp [hw]
  · intro h1
    simp [getCurrentHeight, handleResize, h1]

/-- Witness for C9's amended theorem at a concrete running state and a
mobile-width resize. -/
theorem resize_preserves_transition_witness :
    runningState.isAnimating = true ∧
    getCurrentHeight (handleResize runningState 400 800) = getCurrentHeight runningState ∧
    ((handleResize runningState 400 800).isMobile = true ↔ (400 : ℝ) < 768) :=
  ⟨rfl, (resize_preserves_transition runningState 400 800).2.2.2.2.2.2.2.2 rfl,
    (resize_preserves_transition runningState 400 800).2.2.2.2.2.2.2.1⟩

end BottomSheet

